import Mathlib

/-!
Verification of the pdf-encrypt-decrypt repository: a Go native engine
(`src/main.go`: `buildPermissionMask`, `EncryptPDF`, `DecryptPDF`) reached
through a JavaScript wrapper (`index.js`: `getLibraryPath`, `encryptPDF`,
`decryptPDF`).  Pure functions of the source are embedded as Lean
functions; the third-party pdfcpu engine and the platform stdlib
(base64, JSON, the actual AES work) are passed in as explicit function
parameters, since their behaviour is not part of this repository.
-/

namespace PdfEncrypt

/-! ### Permission flag constants

Modelled from the spec: the constants `model.Permission*` live in the
vendored third-party pdfcpu library, not under `src/`.  The spec
describes each named permission as a distinct bit flag of the PDF
security model, `default` as the all-zero "no permissions" flag value,
and `all` as "the flag value representing every permission
simultaneously".  We therefore assign each named permission its own bit
(positions follow the PDF standard layout the names refer to),
`PermissionsNone = 0`, and `PermissionsAll` = the union of every
permission bit. -/

/-- Modelled from the spec: bit flag "modify document content". -/
def PermissionModify : Nat := 8

/-- Modelled from the spec: bit flag "extract content" (copy). -/
def PermissionExtract : Nat := 16

/-- Modelled from the spec: bit flag "modify annotations / fill forms". -/
def PermissionModAnnFillForm : Nat := 32

/-- Modelled from the spec: bit flag "fill form fields". -/
def PermissionFillRev3 : Nat := 256

/-- Modelled from the spec: bit flag "insert/delete/rotate pages". -/
def PermissionAssembleRev3 : Nat := 1024

/-- Modelled from the spec: bit flag "print at reduced/standard resolution". -/
def PermissionPrintRev3 : Nat := 2048

/-- Modelled from the spec: the all-zero "no permissions" flag value. -/
def PermissionsNone : Nat := 0

/-- Modelled from the spec: the flag value representing every permission
simultaneously (the union of all permission bits). -/
def PermissionsAll : Nat :=
  PermissionModify ||| PermissionExtract ||| PermissionModAnnFillForm |||
  PermissionFillRev3 ||| PermissionAssembleRev3 ||| PermissionPrintRev3

/-! ### String primitives of the host platforms

The Go engine uses `strings.ToLower` and the JavaScript wrapper uses
`String.prototype.startsWith`; both are embedded here as structural
recursions over the character list (the permission vocabulary and the
`"Error"` sentinel are plain ASCII, on which the embeddings agree with
the originals). -/

/-- Go's `strings.ToLower`: lower-case every character. -/
def strToLower (s : String) : String :=
  ⟨s.data.map Char.toLower⟩

/-- Character-list core of `String.prototype.startsWith`: does the
second list occur as a prefix of the first? -/
def beginsWithChars : List Char → List Char → Bool
  | _, [] => true
  | [], _ :: _ => false
  | a :: as, b :: bs => a == b && beginsWithChars as bs

/-- JavaScript's `s.startsWith(search)`. -/
def beginsWith (s search : String) : Bool :=
  beginsWithChars s.data search.data

/-! ### The mask builder (`buildPermissionMask`, src/main.go lines 33-59) -/

/-- One iteration of the `for _, p := range perms` loop of
`buildPermissionMask`: a `switch` on `strings.ToLower(p)` that ORs the
matching flag into the running mask and leaves the mask unchanged for an
unrecognized token. -/
def permStep (mask : Nat) (p : String) : Nat :=
  match strToLower p with
  | "print" => mask ||| PermissionPrintRev3
  | "copy" => mask ||| PermissionExtract
  | "annotate" => mask ||| PermissionModAnnFillForm
  | "forms" => mask ||| PermissionFillRev3
  | "assemble" => mask ||| PermissionAssembleRev3
  | "all" => mask ||| PermissionsAll
  | "modify" => mask ||| PermissionModify
  | "default" => mask ||| PermissionsNone
  | _ => mask

/-- `buildPermissionMask` (src/main.go lines 33-59): starts from mask 0
and folds `permStep` over the token list. -/
def buildPermissionMask (perms : List String) : Nat :=
  perms.foldl permStep 0

/-- The lower-case tokens the `switch` of `buildPermissionMask`
recognizes. -/
def recognizedTokens : List String :=
  ["print", "copy", "annotate", "forms", "assemble", "all", "modify", "default"]

/-- The flag a single already-lowercased token contributes to the mask
(0 for an unrecognized token and for `default`, whose flag value is the
all-zero `PermissionsNone`). -/
def flagOfLower (s : String) : Nat :=
  match s with
  | "print" => PermissionPrintRev3
  | "copy" => PermissionExtract
  | "annotate" => PermissionModAnnFillForm
  | "forms" => PermissionFillRev3
  | "assemble" => PermissionAssembleRev3
  | "all" => PermissionsAll
  | "modify" => PermissionModify
  | "default" => PermissionsNone
  | _ => 0

/-! ### The encryption configuration (`EncryptPDF`, src/main.go lines 69-97) -/

/-- The encryption configuration of the spec's data model:
{user password, owner password, key length, permission mask}. -/
structure EncConfig where
  userPW : String
  ownerPW : String
  keyLength : Nat
  permissions : Nat
deriving DecidableEq, Repr

/-- Modelled from the spec: `model.NewAESConfiguration` lives in the
vendored third-party pdfcpu library, not under `src/`.  The spec states
that the configuration carries the two passwords and the fixed key
length, that its built-in default permission mask is the "no
permissions" value, and that "an empty owner password at encryption time
defaults to the user password's value". -/
def NewAESConfiguration (userPw ownerPw : String) (keyLength : Nat) : EncConfig :=
  { userPW := userPw
    ownerPW := if ownerPw = "" then userPw else ownerPw
    keyLength := keyLength
    permissions := PermissionsNone }

/-- The `setCustomPerms` computation of `EncryptPDF`
(src/main.go lines 86-93): custom permissions are applied only when the
decoded list is non-empty and not solely a single token lowercasing to
"default". -/
def setCustomPerms (permissions : List String) : Bool :=
  if permissions.length > 0 then
    if permissions.length == 1 && strToLower (permissions.headD "") == "default" then
      false
    else
      true
  else
    false

/-- The configuration `EncryptPDF` (src/main.go lines 81-97) hands to
`api.Encrypt`: a fresh AES-256 configuration, with
`conf.Permissions = buildPermissionMask permissions` assigned exactly
when `setCustomPerms` holds. -/
def encryptConfig (permissions : List String) (userPw ownerPw : String) : EncConfig :=
  let conf := NewAESConfiguration userPw ownerPw 256
  if setCustomPerms permissions then
    { conf with permissions := buildPermissionMask permissions }
  else
    conf

/-! ### Native entry point `EncryptPDF` (src/main.go lines 64-110)

Go's `encoding/json.Unmarshal` and `encoding/base64` and pdfcpu's
`api.Encrypt` are stdlib / third-party code, passed in as parameters.
A call to `json.Unmarshal` into a `[]string` has two observable
effects: the contents of the slice afterwards (its zero value `nil`
when the decode could not start, but possibly partially populated when
only some array elements fail to decode) and whether an error was
returned.  `EncryptPDF` discards the error result, so only the slice
contents reach the rest of the function. -/

/-- The observable outcome of `json.Unmarshal([]byte(permissionsJSON),
&permissions)`: the contents of the `permissions` slice after the call,
and whether an error was returned. -/
structure UnmarshalOutcome where
  failed : Bool
  permissions : List String
deriving DecidableEq, Repr

/-- `EncryptPDF` (src/main.go lines 64-110): decode the permission
list — the `failed` flag of the outcome is never consulted, embedding
the source's discarded `json.Unmarshal` error — build the configuration
via `encryptConfig`, run the third-party encrypt operation, and return
either `"Error encrypting PDF: <details>"` or the base64 encoding of
the output bytes. -/
def EncryptPDF (unmarshal : String → UnmarshalOutcome)
    (apiEncrypt : List Nat → EncConfig → Except String (List Nat))
    (b64encode : List Nat → String)
    (pdfBytes : List Nat) (userPw ownerPw permissionsJSON : String) : String :=
  let permissions := (unmarshal permissionsJSON).permissions
  let conf := encryptConfig permissions userPw ownerPw
  match apiEncrypt pdfBytes conf with
  | .error e => "Error encrypting PDF: " ++ e
  | .ok out => b64encode out

/-! ### Native entry point `DecryptPDF` (src/main.go lines 116-155) -/

/-- The password fields of the configuration handed to `api.Decrypt`:
each attempt sets `conf.UserPW` and `conf.OwnerPW`. -/
structure DecConf where
  userPW : String
  ownerPW : String
deriving DecidableEq, Repr

/-- `DecryptPDF` (src/main.go lines 116-155): try the primary password
as both user and owner password; if that fails and a distinct non-empty
secondary password was supplied, retry once with it as both; on final
failure return `"Error decrypting PDF: <details>"` for the last error,
else the base64 encoding of the decrypted bytes.  Alongside the returned
string we record the list of password configurations attempted, in
order. -/
def DecryptPDF (apiDecrypt : List Nat → DecConf → Except String (List Nat))
    (b64encode : List Nat → String)
    (pdfBytes : List Nat) (password ownerPw : String) : String × List DecConf :=
  let conf1 : DecConf := { userPW := password, ownerPW := password }
  match apiDecrypt pdfBytes conf1 with
  | .ok out => (b64encode out, [conf1])
  | .error e1 =>
    if ownerPw ≠ "" ∧ ownerPw ≠ password then
      let conf2 : DecConf := { userPW := ownerPw, ownerPW := ownerPw }
      match apiDecrypt pdfBytes conf2 with
      | .ok out => (b64encode out, [conf1, conf2])
      | .error e2 => ("Error decrypting PDF: " ++ e2, [conf1, conf2])
    else
      ("Error decrypting PDF: " ++ e1, [conf1])

/-! ### The JavaScript wrapper (index.js) -/

/-- `JSON.stringify` applied to an array of strings (escaping kept to
the characters relevant here; the claims never inspect the serialized
text). -/
def jsonEscape (s : String) : String :=
  s.foldl
    (fun acc c =>
      if c = '"' then acc ++ "\\\""
      else if c = '\\' then acc ++ "\\\\"
      else acc.push c)
    ""

/-- JSON serialization of the permission list, as
`JSON.stringify(permissions)` produces for an array of strings. -/
def jsonStringifyStrings (l : List String) : String :=
  "[" ++ String.intercalate "," (l.map (fun s => "\"" ++ jsonEscape s ++ "\"")) ++ "]"

/-- `getLibraryPath` (index.js lines 30-46): select the compiled
artifact name from the host platform and architecture, or throw
`Unsupported platform/architecture: <platform>/<arch>`.  (The source
then resolves the name against the fixed `lib` directory; the selection
itself is what the claims are about.) -/
def getLibraryPath (platform arch : String) : Except String String :=
  if platform == "linux" && arch == "x64" then
    .ok "pdfencrypt_linux.so"
  else if platform == "darwin" then
    .ok (if arch == "arm64" then "pdfencrypt_darwin_arm64.dylib" else "pdfencrypt_darwin_x64.dylib")
  else if platform == "win32" && arch == "x64" then
    .ok "pdfencrypt_win_x64.dll"
  else
    .error ("Unsupported platform/architecture: " ++ platform ++ "/" ++ arch)

/-- `encryptPDF` (index.js lines 68-106): default the owner password to
the user password and the permission list to `["default"]` when the
arguments are omitted, serialize the permissions, call the native
`EncryptPDF` entry point (a parameter here, returning the C string or
null), and interpret the result: a falsy return (null or the empty
string, JavaScript's `!encodedOutput`) raises `Encryption returned
null`; a return starting with `"Error"` is raised as-is; anything else
is base64-decoded (`Buffer.from(encodedOutput, 'base64')`, a parameter)
into the output buffer. -/
def encryptPDF (native : List Nat → Nat → String → String → String → Option String)
    (b64decode : String → List Nat)
    (pdfBuffer : List Nat) (userPassword : String)
    (ownerPassword : Option String) (permissions : Option (List String)) :
    Except String (List Nat) :=
  let ownerPw := ownerPassword.getD userPassword
  let perms := permissions.getD ["default"]
  let permissionsJSON := jsonStringifyStrings perms
  match native pdfBuffer pdfBuffer.length userPassword ownerPw permissionsJSON with
  | none => .error "Encryption returned null"
  | some encodedOutput =>
    if encodedOutput == "" then .error "Encryption returned null"
    else if beginsWith encodedOutput "Error" then .error encodedOutput
    else .ok (b64decode encodedOutput)

/-- `decryptPDF` (index.js lines 116-150): default the secondary owner
password to the empty string when omitted, call the native `DecryptPDF`
entry point, and interpret the result exactly as `encryptPDF` does,
with the null message `Decryption returned null`. -/
def decryptPDF (native : List Nat → Nat → String → String → Option String)
    (b64decode : String → List Nat)
    (pdfBuffer : List Nat) (password : String) (ownerPassword : Option String) :
    Except String (List Nat) :=
  let ownerPw := ownerPassword.getD ""
  match native pdfBuffer pdfBuffer.length password ownerPw with
  | none => .error "Decryption returned null"
  | some encodedOutput =>
    if encodedOutput == "" then .error "Decryption returned null"
    else if beginsWith encodedOutput "Error" then .error encodedOutput
    else .ok (b64decode encodedOutput)

/-! ## Lemmas about the mask builder -/

theorem permStep_eq (mask : Nat) (p : String) :
    permStep mask p = mask ||| flagOfLower (strToLower p) := by
  unfold permStep flagOfLower
  split <;> simp_all

theorem foldl_permStep_eq (l : List String) :
    ∀ a : Nat,
      List.foldl permStep a l =
        List.foldl (fun m p => m ||| flagOfLower (strToLower p)) a l := by
  induction l with
  | nil => intro a; rfl
  | cons x xs ih =>
    intro a
    simp only [List.foldl_cons, permStep_eq]
    exact ih _

theorem foldl_lor_perm (f : String → Nat) {l l' : List String} (h : l.Perm l') :
    ∀ a : Nat,
      List.foldl (fun m p => m ||| f p) a l =
        List.foldl (fun m p => m ||| f p) a l' := by
  induction h with
  | nil => intro a; rfl
  | cons x _ ih =>
    intro a
    simp only [List.foldl_cons]
    exact ih _
  | swap x y l =>
    intro a
    simp only [List.foldl_cons]
    rw [Nat.or_assoc, Nat.or_assoc, Nat.or_comm (f y) (f x)]
  | trans _ _ ih1 ih2 =>
    intro a
    rw [ih1, ih2]

theorem buildPermissionMask_perm {l l' : List String} (h : l.Perm l') :
    buildPermissionMask l = buildPermissionMask l' := by
  unfold buildPermissionMask
  rw [foldl_permStep_eq, foldl_permStep_eq]
  exact foldl_lor_perm (fun p => flagOfLower (strToLower p)) h 0

theorem buildPermissionMask_dup {x : String} {l : List String} (h : x ∈ l) :
    buildPermissionMask (x :: l) = buildPermissionMask l := by
  have hp : l.Perm (x :: l.erase x) := List.perm_cons_erase h
  rw [buildPermissionMask_perm (hp.cons x), buildPermissionMask_perm hp]
  unfold buildPermissionMask
  rw [foldl_permStep_eq, foldl_permStep_eq]
  simp only [List.foldl_cons]
  congr 1
  rw [Nat.or_assoc, Nat.or_self]

theorem flagOfLower_not_recognized {s : String} (h : s ∉ recognizedTokens) :
    flagOfLower s = 0 := by
  unfold flagOfLower
  split <;> simp_all [recognizedTokens]

theorem buildPermissionMask_unknown {x : String}
    (hx : strToLower x ∉ recognizedTokens) (l₁ l₂ : List String) :
    buildPermissionMask (l₁ ++ x :: l₂) = buildPermissionMask (l₁ ++ l₂) := by
  unfold buildPermissionMask
  rw [foldl_permStep_eq, foldl_permStep_eq, List.foldl_append, List.foldl_append]
  simp only [List.foldl_cons, flagOfLower_not_recognized hx, Nat.or_zero]

theorem foldl_flag_all_unknown {l : List String}
    (h : ∀ x ∈ l, strToLower x ∉ recognizedTokens) :
    ∀ a : Nat, List.foldl (fun m p => m ||| flagOfLower (strToLower p)) a l = a := by
  induction l with
  | nil => intro a; rfl
  | cons x xs ih =>
    intro a
    simp only [List.foldl_cons,
      flagOfLower_not_recognized (h x (List.mem_cons_self x xs)), Nat.or_zero]
    exact ih (fun y hy => h y (List.mem_cons_of_mem x hy)) a

theorem foldl_flag_lower_congr {l l' : List String}
    (h : List.Forall₂ (fun a b => strToLower a = strToLower b) l l') :
    ∀ a : Nat,
      List.foldl (fun m p => m ||| flagOfLower (strToLower p)) a l =
        List.foldl (fun m p => m ||| flagOfLower (strToLower p)) a l' := by
  induction h with
  | nil => intro a; rfl
  | cons hxy _ ih =>
    intro a
    simp only [List.foldl_cons]
    rw [hxy]
    exact ih _

theorem encryptConfig_eq (permissions : List String) (userPw ownerPw : String) :
    encryptConfig permissions userPw ownerPw =
      if setCustomPerms permissions then
        { NewAESConfiguration userPw ownerPw 256 with
            permissions := buildPermissionMask permissions }
      else NewAESConfiguration userPw ownerPw 256 := rfl

/-! ## Claim theorems -/

/-- Claim C3: the mask for `["print","copy"]` is exactly the bitwise OR of the
print flag and the copy flag, with none of the other permission flag bits set;
the mask for `["all"]` is the full all-permissions flag value; the mask of an
empty list or of a list of only unrecognized tokens is zero; and the token
`"default"` contributes the all-zero "no permissions" flag value
`PermissionsNone` to the mask. -/
theorem claim_C3_mask_builder :
    buildPermissionMask ["print", "copy"] = (PermissionPrintRev3 ||| PermissionExtract)
    ∧ buildPermissionMask ["print", "copy"] &&&
        (PermissionModify ||| PermissionModAnnFillForm ||| PermissionFillRev3 |||
          PermissionAssembleRev3) = 0
    ∧ buildPermissionMask ["all"] = PermissionsAll
    ∧ buildPermissionMask [] = 0
    ∧ (∀ l : List String, (∀ x ∈ l, strToLower x ∉ recognizedTokens) →
        buildPermissionMask l = 0)
    ∧ (∀ m : Nat, permStep m "default" = m ||| PermissionsNone)
    ∧ PermissionsNone = 0 := by
  refine ⟨by decide, by decide, by decide, rfl, ?_, fun m => rfl, rfl⟩
  intro l h
  unfold buildPermissionMask
  rw [foldl_permStep_eq]
  exact foldl_flag_all_unknown h 0

/-- Witness for the unrecognized-only clause of C3, at the concrete list
`["foo", "bar"]`. -/
theorem claim_C3_mask_builder_witness :
    buildPermissionMask ["foo", "bar"] = 0 :=
  claim_C3_mask_builder.2.2.2.2.1 ["foo", "bar"] (by decide)

/-- Claim C7: the permission mask is invariant under (1) replacing every token
by one with the same lower-casing, (2) permuting the list, (3) duplicating a
token already present, and (4) inserting or removing a token outside the
recognized vocabulary. -/
theorem claim_C7_mask_invariance :
    (∀ l l' : List String,
        List.Forall₂ (fun a b => strToLower a = strToLower b) l l' →
        buildPermissionMask l = buildPermissionMask l')
    ∧ (∀ l l' : List String, l.Perm l' →
        buildPermissionMask l = buildPermissionMask l')
    ∧ (∀ (x : String) (l : List String), x ∈ l →
        buildPermissionMask (x :: l) = buildPermissionMask l)
    ∧ (∀ (x : String) (l₁ l₂ : List String), strToLower x ∉ recognizedTokens →
        buildPermissionMask (l₁ ++ x :: l₂) = buildPermissionMask (l₁ ++ l₂)) := by
  refine ⟨?_, fun l l' h => buildPermissionMask_perm h,
    fun x l h => buildPermissionMask_dup h,
    fun x l₁ l₂ h => buildPermissionMask_unknown h l₁ l₂⟩
  intro l l' h
  unfold buildPermissionMask
  rw [foldl_permStep_eq, foldl_permStep_eq]
  exact foldl_flag_lower_congr h 0

/-- Witness for the permutation clause of C7, at a concrete pair of lists. -/
theorem claim_C7_mask_invariance_witness :
    buildPermissionMask ["copy", "print"] = buildPermissionMask ["print", "copy"] :=
  claim_C7_mask_invariance.2.1 ["copy", "print"] ["print", "copy"] (by decide)

/-- Claim C2: custom permissions are applied to the configuration exactly when
the requested list is non-empty and different from `["default"]` — stated
extensionally on the resulting configuration, which is what "effective
permission mask" observes (the call-site check lower-cases the single token,
but a single token lowercasing to "default" contributes `PermissionsNone`,
which is also the untouched built-in default, so the configurations agree) —
and encrypting with `[]` and with `["default"]` yield identical
configurations. -/
theorem claim_C2_default_permission_call_site :
    (∀ (perms : List String) (u o : String),
        encryptConfig perms u o =
          if perms ≠ [] ∧ perms ≠ ["default"] then
            { NewAESConfiguration u o 256 with
                permissions := buildPermissionMask perms }
          else NewAESConfiguration u o 256)
    ∧ (∀ u o : String, encryptConfig [] u o = encryptConfig ["default"] u o) := by
  constructor
  · intro perms u o
    match perms with
    | [] => simp [encryptConfig, setCustomPerms]
    | [p] =>
      by_cases hd : strToLower p = "default"
      · have hsc : setCustomPerms [p] = false := by simp [setCustomPerms, hd]
        by_cases hp : p = "default"
        · subst hp
          rw [encryptConfig_eq, hsc]
          simp
        · have hm : buildPermissionMask [p] = 0 := by
            show permStep 0 p = 0
            rw [permStep_eq, hd]
            rfl
          rw [encryptConfig_eq, hsc, if_neg (by simp), if_pos ⟨by simp, by simp [hp]⟩, hm]
          simp [NewAESConfiguration, PermissionsNone]
      · have hsc : setCustomPerms [p] = true := by simp [setCustomPerms, hd]
        have hp : p ≠ "default" := fun hh => hd (by rw [hh]; rfl)
        rw [encryptConfig_eq, hsc, if_pos rfl, if_pos ⟨by simp, by simp [hp]⟩]
    | p :: q :: rest =>
      have hsc : setCustomPerms (p :: q :: rest) = true := by
        simp [setCustomPerms]
      rw [encryptConfig_eq, hsc, if_pos rfl, if_pos ⟨by simp, by simp⟩]
  · intro u o
    rfl

/-- Claim C10: the call-site check for the single-element "default" permission
list is case-insensitive — any single token lowercasing to "default" leaves the
configuration's built-in default permissions untouched, exactly as `["default"]`
or the empty list does. -/
theorem claim_C10_case_insensitive_default_check :
    ∀ (s u o : String), strToLower s = "default" →
      encryptConfig [s] u o = NewAESConfiguration u o 256
      ∧ encryptConfig [s] u o = encryptConfig [] u o := by
  intro s u o h
  have hsc : setCustomPerms [s] = false := by simp [setCustomPerms, h]
  refine ⟨?_, ?_⟩ <;> rw [encryptConfig_eq, hsc] <;> simp [encryptConfig, setCustomPerms]

/-- Witness for C10 at the concrete token `"DEFAULT"`. -/
theorem claim_C10_case_insensitive_default_check_witness :
    encryptConfig ["DEFAULT"] "u" "o" = NewAESConfiguration "u" "o" 256
    ∧ encryptConfig ["DEFAULT"] "u" "o" = encryptConfig [] "u" "o" :=
  claim_C10_case_insensitive_default_check "DEFAULT" "u" "o" (by decide)

/-- Claim C5: omitting the owner password argument of `encryptPDF` is the same
call as passing the user password for it, and an empty owner password at
encryption time yields the same encryption configuration as passing the user
password as owner password (the second part rests on the spec-modelled
defaulting inside `NewAESConfiguration`). -/
theorem claim_C5_owner_password_defaulting :
    (∀ (native : List Nat → Nat → String → String → String → Option String)
        (b64decode : String → List Nat) (pdfBuffer : List Nat)
        (pw : String) (perms : Option (List String)),
        encryptPDF native b64decode pdfBuffer pw none perms =
          encryptPDF native b64decode pdfBuffer pw (some pw) perms)
    ∧ (∀ (perms : List String) (u : String),
        encryptConfig perms u "" = encryptConfig perms u u) := by
  constructor
  · intro native b64decode pdfBuffer pw perms
    rfl
  · intro perms u
    have h : NewAESConfiguration u "" 256 = NewAESConfiguration u u 256 := by
      simp [NewAESConfiguration]
    rw [encryptConfig_eq, encryptConfig_eq, h]

/-- Claim C1: for every decryption oracle, buffer and password pair, the
native Decrypt first attempts decryption with the primary password as both the
user and the owner password; exactly one retry — with the secondary password as
both roles — happens iff that first attempt fails, the secondary password is
non-empty, and it differs from the primary; no other attempts are ever made. -/
theorem claim_C1_decrypt_attempt_policy :
    ∀ (apiDecrypt : List Nat → DecConf → Except String (List Nat))
      (b64encode : List Nat → String) (pdfBytes : List Nat) (p o : String),
      (DecryptPDF apiDecrypt b64encode pdfBytes p o).2 =
        match apiDecrypt pdfBytes { userPW := p, ownerPW := p } with
        | .ok _ => [{ userPW := p, ownerPW := p }]
        | .error _ =>
          if o ≠ "" ∧ o ≠ p then
            [{ userPW := p, ownerPW := p }, { userPW := o, ownerPW := o }]
          else
            [{ userPW := p, ownerPW := p }] := by
  intro apiDecrypt b64encode pdfBytes p o
  unfold DecryptPDF
  cases h : apiDecrypt pdfBytes { userPW := p, ownerPW := p } with
  | ok out => simp [h]
  | error e1 =>
    simp only [h]
    by_cases hc : o ≠ "" ∧ o ≠ p
    · rw [if_pos hc, if_pos hc]
      cases h2 : apiDecrypt pdfBytes { userPW := o, ownerPW := o } <;> simp [h2]
    · rw [if_neg hc, if_neg hc]

/-- Claim C8: when both decryption attempts fail, the returned error text is
built from the second attempt's failure alone; the first attempt's error detail
does not occur in the result (the result is the same whatever it was). -/
theorem claim_C8_second_failure_surfaced :
    ∀ (apiDecrypt : List Nat → DecConf → Except String (List Nat))
      (b64encode : List Nat → String) (pdfBytes : List Nat) (p o e1 e2 : String),
      apiDecrypt pdfBytes { userPW := p, ownerPW := p } = .error e1 →
      o ≠ "" → o ≠ p →
      apiDecrypt pdfBytes { userPW := o, ownerPW := o } = .error e2 →
      (DecryptPDF apiDecrypt b64encode pdfBytes p o).1 =
        "Error decrypting PDF: " ++ e2 := by
  intro apiDecrypt b64encode pdfBytes p o e1 e2 h1 ho hop h2
  unfold DecryptPDF
  simp only [h1, if_pos (And.intro ho hop), h2]

/-- Witness for C8 with a concrete oracle that rejects every password. -/
theorem claim_C8_second_failure_surfaced_witness :
    (DecryptPDF
        (fun _ c => (Except.error ("wrong password for " ++ c.userPW) :
          Except String (List Nat)))
        (fun _ => "") [] "a" "b").1 = "Error decrypting PDF: wrong password for b" :=
  claim_C8_second_failure_surfaced
    (fun _ c => Except.error ("wrong password for " ++ c.userPW))
    (fun _ => "") [] "a" "b" "wrong password for a" "wrong password for b"
    rfl (by decide) (by decide) rfl

/-- Claim C4: the wrappers raise "Encryption returned null" /
"Decryption returned null" when the native call returns no text (null, or the
empty text — JavaScript's falsy check), raise the returned text itself when it
begins with "Error" (never base64-decoding it), and otherwise return the
base64-decoding of the returned text. -/
theorem claim_C4_wrapper_result_handling :
    ∀ (b64decode : String → List Nat) (res : Option String)
      (pdfBuffer : List Nat) (u pw : String)
      (opw opw2 : Option String) (perms : Option (List String)),
      ((res = none ∨ res = some "") →
        encryptPDF (fun _ _ _ _ _ => res) b64decode pdfBuffer u opw perms =
            .error "Encryption returned null"
        ∧ decryptPDF (fun _ _ _ _ => res) b64decode pdfBuffer pw opw2 =
            .error "Decryption returned null")
    ∧ (∀ s : String, res = some s → beginsWith s "Error" = true →
        encryptPDF (fun _ _ _ _ _ => res) b64decode pdfBuffer u opw perms = .error s
        ∧ decryptPDF (fun _ _ _ _ => res) b64decode pdfBuffer pw opw2 = .error s)
    ∧ (∀ s : String, res = some s → s ≠ "" → beginsWith s "Error" = false →
        encryptPDF (fun _ _ _ _ _ => res) b64decode pdfBuffer u opw perms =
            .ok (b64decode s)
        ∧ decryptPDF (fun _ _ _ _ => res) b64decode pdfBuffer pw opw2 =
            .ok (b64decode s)) := by
  intro b64decode res pdfBuffer u pw opw opw2 perms
  refine ⟨?_, ?_, ?_⟩
  · rintro (rfl | rfl) <;> exact ⟨rfl, rfl⟩
  · rintro s rfl hErr
    have h0 : s ≠ "" := by
      intro h0
      subst h0
      exact absurd hErr (by decide)
    constructor <;> simp [encryptPDF, decryptPDF, h0, hErr]
  · rintro s rfl h0 hErr
    constructor <;> simp [encryptPDF, decryptPDF, h0, hErr]

/-- Witness for C4 at the concrete native return text "Error boom". -/
theorem claim_C4_wrapper_result_handling_witness :
    encryptPDF (fun _ _ _ _ _ => some "Error boom") (fun _ => []) [] "u" none none =
        .error "Error boom"
    ∧ decryptPDF (fun _ _ _ _ => some "Error boom") (fun _ => []) [] "p" none =
        .error "Error boom" :=
  (claim_C4_wrapper_result_handling (fun _ => []) (some "Error boom")
      [] "u" "p" none none none).2.1 "Error boom" rfl (by decide)

/-- Claim C6: the library-path resolver maps {linux, x64} to the Linux shared
object, {darwin, arm64} to the Apple-silicon dylib, {darwin, any other
architecture} to the Intel dylib, {win32, x64} to the Windows DLL, and fails on
every other pair with an error naming the platform and the architecture. -/
theorem claim_C6_library_path_resolution :
    getLibraryPath "linux" "x64" = .ok "pdfencrypt_linux.so"
    ∧ getLibraryPath "darwin" "arm64" = .ok "pdfencrypt_darwin_arm64.dylib"
    ∧ (∀ a : String, a ≠ "arm64" →
        getLibraryPath "darwin" a = .ok "pdfencrypt_darwin_x64.dylib")
    ∧ getLibraryPath "win32" "x64" = .ok "pdfencrypt_win_x64.dll"
    ∧ (∀ p a : String, ¬(p = "linux" ∧ a = "x64") → p ≠ "darwin" →
        ¬(p = "win32" ∧ a = "x64") →
        getLibraryPath p a =
          .error ("Unsupported platform/architecture: " ++ p ++ "/" ++ a)) := by
  refine ⟨rfl, rfl, ?_, rfl, ?_⟩
  · intro a h
    simp [getLibraryPath, h]
  · intro p a h1 h2 h3
    simp only [getLibraryPath, Bool.and_eq_true, beq_iff_eq]
    rw [if_neg h1, if_neg h2, if_neg h3]

/-- Witness for C6: the darwin catch-all and an unsupported pair. -/
theorem claim_C6_library_path_resolution_witness :
    getLibraryPath "darwin" "x64" = .ok "pdfencrypt_darwin_x64.dylib"
    ∧ getLibraryPath "linux" "arm64" =
        .error "Unsupported platform/architecture: linux/arm64" :=
  ⟨claim_C6_library_path_resolution.2.2.1 "x64" (by decide),
    claim_C6_library_path_resolution.2.2.2.2 "linux" "arm64"
      (by decide) (by decide) (by decide)⟩

end PdfEncrypt
